import Mathlib

set_option maxRecDepth 10000

/-!
# Verification of the reddit_meme_scraper pipeline

A shallow embedding of the core pipeline of `reddit_meme_scraper`
(`utils.py`, `reddit_scraper.py`, `telegram_sender.py`, `main.py`) and
proofs about it.

Conventions of the embedding:
* Python strings are Lean `String`s; `len` is `String.length` (both count
  unicode code points), slicing `s[:n]` is taking the first `n` code points.
* Python `set` of post ids is `Finset String`.
* Fallible calls are `Except`; an exception that a `try/except` swallows is
  an `Except.error` consumed by the embedding of that handler.
* Network transports (Reddit listings, Telegram send results) are passed in
  explicitly as data, since the embedding is of the control flow around them.
-/

namespace MemeScraper

/-- Python `caption[:n]`: the first `n` code points of `s`. -/
def strTake (s : String) (n : Nat) : String := ⟨s.data.take n⟩

/-- Substring membership check, embedding Python's `pat in s`. -/
def listStarts : List Char → List Char → Bool
  | [], _ => true
  | _ :: _, [] => false
  | a :: as, b :: bs => a == b && listStarts as bs

/-- Auxiliary scan for `strContains`. -/
def listContains (pat : List Char) : List Char → Bool
  | [] => listStarts pat []
  | c :: cs => listStarts pat (c :: cs) || listContains pat cs

/-- Python `pat in s` on strings. -/
def strContains (s pat : String) : Bool := listContains pat.data s.data

/-- Python `s.endswith(suffix)`. -/
def strEndsWith (s suffix : String) : Bool :=
  listStarts suffix.data.reverse s.data.reverse

/-- Python `s.startswith(pre)`. -/
def strStartsWith (s pre : String) : Bool := listStarts pre.data s.data

/-- Python `s.lower()`, restricted to the ASCII lowering the urls in this
code path use. -/
def strToLower (s : String) : String := ⟨s.data.map Char.toLower⟩

/-- Left-to-right, non-overlapping replacement scan; the fuel argument is
the length of the remaining input, so it never runs out. -/
def replaceGo (pat repl : List Char) : Nat → List Char → List Char
  | _, [] => []
  | 0, l => l
  | fuel + 1, c :: cs =>
    if !pat.isEmpty && listStarts pat (c :: cs) then
      repl ++ replaceGo pat repl fuel (List.drop (pat.length - 1) cs)
    else
      c :: replaceGo pat repl fuel cs

/-- Python `s.replace(pat, repl)` for a non-empty pattern. -/
def pyReplace (s pat repl : String) : String :=
  ⟨replaceGo pat.data repl.data s.data.length s.data⟩

/-! ## utils.py -/

/-- `utils.is_image_url`: the tuple of recognized image extensions. -/
def image_extensions : List String := [".jpg", ".jpeg", ".png", ".gif", ".webp"]

/-- `utils.is_image_url(url)`:
`any(url.lower().endswith(ext) for ext in image_extensions)`. -/
def is_image_url (url : String) : Bool :=
  image_extensions.any (fun ext => strEndsWith (strToLower url) ext)

/-- The on-disk state of `sent_posts.json` as seen by `utils.load_sent_posts`:
the file may be absent (`open` raises `FileNotFoundError`), present but not
valid JSON (`json.load` raises `JSONDecodeError`), or a valid JSON list of
ids. -/
inductive StoreFile
  | missing
  | invalid
  | valid (ids : List String)
deriving DecidableEq, Repr

/-- The error a failed store read propagates. -/
inductive ReadError
  | jsonDecodeError
deriving DecidableEq, Repr

/-- `utils.load_sent_posts`: the `try` block opens and parses the file; the
only handler is `except FileNotFoundError: return set()`, so a missing file
yields the empty set while unparseable content propagates `JSONDecodeError`. -/
def load_sent_posts : StoreFile → Except ReadError (Finset String)
  | .missing => .ok ∅
  | .invalid => .error .jsonDecodeError
  | .valid ids => .ok ids.toFinset

/-! ## reddit_scraper.py: data model -/

/-- `post.preview['images'][0]` when the post has a preview with an
`'images'` entry: the list of resolution urls (ascending resolution, Python
`images[-1]` is the largest) and the `'source'` url. -/
structure PreviewImages where
  resolutions : List String
  source : String
deriving DecidableEq, Repr

/-- The fields of a praw submission that the scraper reads. `post_hint` and
`preview` are optional attributes (`hasattr` checks in the code); `author`
is `None` for deleted accounts. -/
structure Post where
  id : String
  title : String
  url : String
  score : Int
  over_18 : Bool
  post_hint : Option String
  preview : Option PreviewImages
  author : Option String
  created_utc : Nat
  permalink : String
deriving DecidableEq, Repr

/-- The `filters` section of the config, with the defaults the code passes
to `.get`. -/
structure Filters where
  exclude_nsfw : Bool := true
  max_title_length : Nat := 200
  image_only : Bool := true
deriving DecidableEq, Repr

/-- The normalized item record built by `_extract_meme_data`. -/
structure Meme where
  id : String
  title : String
  url : String
  image_url : String
  score : Int
  subreddit : String
  author : String
  created_utc : Nat
  permalink : String
deriving DecidableEq, Repr

/-- `RedditScraper._passes_filters(post, filters, min_score)`: score filter,
NSFW filter, title length filter, image-only filter, in that order, each
returning `False` on failure. -/
def passes_filters (p : Post) (filters : Filters) (min_score : Int) : Bool :=
  if p.score < min_score then false
  else if filters.exclude_nsfw && p.over_18 then false
  else if p.title.length > filters.max_title_length then false
  else if filters.image_only &&
      !(is_image_url p.url || p.post_hint == some "image") then false
  else true

/-- The media-resolution part of `RedditScraper._extract_meme_data`:
(a) direct image url; (b) preview images, taking `resolutions[-1]` (or the
`source` url when `resolutions` is empty) with `&amp;` unescaped;
(c) `https://i.redd.it/` urls; otherwise no resolvable media. -/
def resolve_image_url (p : Post) : Option String :=
  if is_image_url p.url then some p.url
  else match p.preview with
    | some pv =>
      match pv.resolutions.getLast? with
      | some u => some (pyReplace u "&amp;" "&")
      | none => some (pyReplace pv.source "&amp;" "&")
    | none =>
      if strStartsWith p.url "https://i.redd.it/" then some p.url else none

/-- `RedditScraper._extract_meme_data(post, subreddit_name)`: `None` when no
media url resolves, otherwise the normalized record. -/
def extract_meme_data (p : Post) (subreddit_name : String) : Option Meme :=
  match resolve_image_url p with
  | none => none
  | some img => some
      { id := p.id
        title := p.title
        url := p.url
        image_url := img
        score := p.score
        subreddit := subreddit_name
        author := p.author.getD "Unknown"
        created_utc := p.created_utc
        permalink := "https://reddit.com" ++ p.permalink }

/-! ## reddit_scraper.py: the scrape loop -/

/-- Outcome of fetching one subreddit's listing: either the list of posts
the configured sort yields, or an exception during the fetch (network or
auth error), which `scrape_memes`'s per-subreddit `try/except` catches. -/
inductive FetchResult
  | ok (posts : List Post)
  | fetchError (msg : String)
deriving Repr

/-- One configured subreddit together with what fetching it returns. -/
structure SubredditFetch where
  name : String
  fetch : FetchResult
deriving Repr

/-- The inner `for post in posts` loop of `RedditScraper.scrape_memes`:
skip posts whose id is in `sent_posts`, skip posts failing the filters,
extract the rest; a successful extraction appends the meme and adds its id
to `sent_posts`. Returns the memes found and the updated id set. -/
def process_posts (filters : Filters) (min_score : Int) (subreddit_name : String) :
    List Post → Finset String → List Meme × Finset String
  | [], sent => ([], sent)
  | p :: ps, sent =>
    if p.id ∈ sent then
      process_posts filters min_score subreddit_name ps sent
    else if !(passes_filters p filters min_score) then
      process_posts filters min_score subreddit_name ps sent
    else
      match extract_meme_data p subreddit_name with
      | some m =>
        let rest := process_posts filters min_score subreddit_name ps (insert p.id sent)
        (m :: rest.1, rest.2)
      | none => process_posts filters min_score subreddit_name ps sent

/-- The outer `for subreddit_name in subreddits` loop of `scrape_memes`:
a subreddit whose fetch raised is logged and skipped (the `except` clause),
the others contribute their memes in order, threading `sent_posts`. -/
def scrape_subreddits (filters : Filters) (min_score : Int) :
    List SubredditFetch → Finset String → List Meme × Finset String
  | [], sent => ([], sent)
  | c :: cs, sent =>
    match c.fetch with
    | .fetchError _ => scrape_subreddits filters min_score cs sent
    | .ok posts =>
      let r := process_posts filters min_score c.name posts sent
      let rest := scrape_subreddits filters min_score cs r.2
      (r.1 ++ rest.1, rest.2)

/-- The observable result of one `scrape_memes` call: the returned memes,
the final in-memory `sent_posts` set, and the trace of `save_sent_posts`
calls made (the code calls it once, after the subreddit loop). -/
structure ScrapeRun where
  memes : List Meme
  sent_posts : Finset String
  saves : List (Finset String)

/-- `RedditScraper.scrape_memes`: run the subreddit loop from the current
`sent_posts` state, then `save_sent_posts(self.sent_posts)` exactly once. -/
def scrape_memes (filters : Filters) (min_score : Int) (subreddits : List SubredditFetch)
    (sent : Finset String) : ScrapeRun :=
  let r := scrape_subreddits filters min_score subreddits sent
  { memes := r.1, sent_posts := r.2, saves := [r.2] }

/-! ## telegram_sender.py -/

/-- A `telegram.error.TelegramError` as the delivery code sees it: the code
only ever inspects `str(e)`. python-telegram-bot raises `TelegramError`
subclasses for both API rejections and network failures. -/
structure TgError where
  msg : String
deriving DecidableEq, Repr

/-- The condition in `_send_single_meme`'s `except TelegramError` handler:
`"photo_invalid_dimensions" in str(e) or "failed to get HTTP URL content"
in str(e)`. -/
def fallback_eligible (e : TgError) : Bool :=
  strContains e.msg "photo_invalid_dimensions" ||
    strContains e.msg "failed to get HTTP URL content"

/-- What the three Telegram send primitives return for a given meme:
the results of `bot.send_photo`, `bot.send_document`, `bot.send_message`
if the corresponding tier is attempted. -/
structure Transport where
  photoResult : Except TgError Unit
  documentResult : Except TgError Unit
  textResult : Except TgError Unit
deriving Repr

/-- The unconditional caption text built by `_format_caption` before the
length check. -/
def raw_caption (m : Meme) : String :=
  "*" ++ m.title ++ "*\n\n" ++
    "📍 r/" ++ m.subreddit ++ "\n" ++
    "⬆️ " ++ toString m.score ++ " upvotes\n" ++
    "👤 u/" ++ m.author ++ "\n\n" ++
    "[View on Reddit](" ++ m.permalink ++ ")"

/-- `TelegramSender._format_caption`: the formatted caption, truncated via
`caption[:1020] + "..."` when its length exceeds 1024 characters. -/
def format_caption (m : Meme) : String :=
  let caption := raw_caption m
  if caption.length > 1024 then strTake caption 1020 ++ "..." else caption

/-- The message text built by `_send_text_fallback`. -/
def text_fallback_message (m : Meme) : String :=
  "*" ++ m.title ++ "*\n\n" ++
    "r/" ++ m.subreddit ++ " • " ++ toString m.score ++ " upvotes\n" ++
    "[View Image](" ++ m.image_url ++ ")\n" ++
    "[Reddit Post](" ++ m.permalink ++ ")"

/-- One call to a Telegram send primitive, with the payload it was given. -/
inductive Attempt
  | photo (url caption : String)
  | document (url caption : String)
  | text (message : String)
deriving DecidableEq, Repr

/-- How one item's delivery ends: some tier succeeded; the text fallback
failed and `_send_text_fallback` logged it (nothing propagates); or
`_send_single_meme` re-raised a tier-1 error to its caller. -/
inductive ItemOutcome
  | delivered
  | loggedFailure (e : TgError)
  | raised (e : TgError)
deriving DecidableEq, Repr

/-- `_send_single_meme` with its fallback chain `_send_as_document` and
`_send_text_fallback`: sends the photo; on a fallback-eligible
`TelegramError` retries as a document with the same url and caption; on a
document `TelegramError` falls back to a text message whose own failure is
only logged; re-raises any other tier-1 error. Returns the attempts made,
in order, and the outcome. -/
def send_single_meme (t : Transport) (m : Meme) : List Attempt × ItemOutcome :=
  let caption := format_caption m
  let photoAttempt := Attempt.photo m.image_url caption
  match t.photoResult with
  | .ok _ => ([photoAttempt], .delivered)
  | .error e =>
    if fallback_eligible e then
      match t.documentResult with
      | .ok _ => ([photoAttempt, .document m.image_url caption], .delivered)
      | .error _ =>
        match t.textResult with
        | .ok _ =>
          ([photoAttempt, .document m.image_url caption,
            .text (text_fallback_message m)], .delivered)
        | .error e2 =>
          ([photoAttempt, .document m.image_url caption,
            .text (text_fallback_message m)], .loggedFailure e2)
    else
      ([photoAttempt], .raised e)

/-- What the per-item `except Exception` handler inside
`_send_memes_async`'s loop records for one meme. -/
inductive LoggedResult
  | ok
  | errorLogged (e : TgError)
deriving DecidableEq, Repr

/-- The loop body of `_send_memes_async`: each meme is sent inside
`try: ... except Exception as e: logger.error(...)`, so a raised error is
logged and the loop continues with the next meme. -/
def send_memes_async (items : List (Transport × Meme)) : List LoggedResult :=
  items.map (fun tm =>
    match (send_single_meme tm.1 tm.2).2 with
    | .raised e => .errorLogged e
    | _ => .ok)

/-- `TelegramSender.send_memes` on a non-empty batch with Telegram enabled:
it runs `_send_memes_async`, whose per-item handler catches every delivery
exception, so the call returns normally whatever the per-item outcomes. -/
def send_memes (items : List (Transport × Meme)) : Except TgError (List LoggedResult) :=
  .ok (send_memes_async items)

/-! ## main.py: the driver -/

/-- The counting loop of `scrape_and_send` in `main.py`: for each meme it
calls `telegram_sender.send_memes([meme])`, incrementing `sent_count` when
the call returns and `failed_count` when it raises. Returns
`(sent_count, failed_count)`. -/
def scrape_and_send_counts (items : List (Transport × Meme)) : Nat × Nat :=
  items.foldl
    (fun counts tm =>
      match send_memes [tm] with
      | .ok _ => (counts.1 + 1, counts.2)
      | .error _ => (counts.1, counts.2 + 1))
    (0, 0)

/-! ## General lemmas about the embedding -/

theorem strTake_length (s : String) (n : Nat) : (strTake s n).length = min n s.length := by
  show (s.data.take n).length = min n s.data.length
  exact List.length_take n s.data

theorem str_append_length (s t : String) : (s ++ t).length = s.length + t.length := by
  show (s.data ++ t.data).length = s.data.length + t.data.length
  exact List.length_append s.data t.data

/-! ## C1: caption truncation -/

/-- A meme whose formatted caption is exactly 1025 characters long. -/
def c1_meme : Meme :=
  { id := "c1", title := ⟨List.replicate 974 'a'⟩, url := "u",
    image_url := "i", score := 100, subreddit := "m", author := "u",
    created_utc := 0, permalink := "p" }

/-- A meme whose formatted caption is exactly 1024 characters long. -/
def c1_meme_at_limit : Meme :=
  { id := "c1b", title := ⟨List.replicate 973 'a'⟩, url := "u",
    image_url := "i", score := 100, subreddit := "m", author := "u",
    created_utc := 0, permalink := "p" }

/-- C1, counterexample: a formatted caption of 1025 characters is truncated
to 1023 characters, not to the claimed 1024. -/
theorem c1_truncation_counterexample :
    (raw_caption c1_meme).length = 1025 ∧
    (format_caption c1_meme).length = 1023 ∧
    ¬ (format_caption c1_meme).length = 1024 := by
  refine ⟨by decide, by decide, by decide⟩

/-- C1, amended: a formatted caption longer than 1024 characters is
truncated to exactly 1023 characters — its first 1020 characters followed
by a three-dot ellipsis — with the truncation applied to the whole
formatted string; a caption of at most 1024 characters (in particular one
of exactly 1024) is returned unchanged. -/
theorem c1_caption_truncation (m : Meme) :
    ((raw_caption m).length > 1024 →
      format_caption m = strTake (raw_caption m) 1020 ++ "..." ∧
      (format_caption m).length = 1023) ∧
    ((raw_caption m).length ≤ 1024 → format_caption m = raw_caption m) := by
  constructor
  · intro h
    have hfc : format_caption m = strTake (raw_caption m) 1020 ++ "..." := by
      unfold format_caption
      simp only [if_pos h]
    refine ⟨hfc, ?_⟩
    rw [hfc, str_append_length, strTake_length]
    have : min 1020 (raw_caption m).length = 1020 := by omega
    rw [this]
    rfl
  · intro h
    unfold format_caption
    simp only [if_neg (by omega : ¬ (raw_caption m).length > 1024)]

/-- C1, witness: the amended statement at the concrete 1025- and
1024-character captions. -/
theorem c1_caption_truncation_witness :
    ((raw_caption c1_meme).length > 1024 ∧
      format_caption c1_meme = strTake (raw_caption c1_meme) 1020 ++ "..." ∧
      (format_caption c1_meme).length = 1023) ∧
    ((raw_caption c1_meme_at_limit).length ≤ 1024 ∧
      format_caption c1_meme_at_limit = raw_caption c1_meme_at_limit) :=
  ⟨⟨by decide, (c1_caption_truncation c1_meme).1 (by decide)⟩,
   ⟨by decide, (c1_caption_truncation c1_meme_at_limit).2 (by decide)⟩⟩

/-! ## C4: identifier-store read failure -/

/-- C4, counterexample: a read failure caused by unparseable store content
is not treated as "no prior history" — `load_sent_posts` only catches
`FileNotFoundError`, so a `JSONDecodeError` propagates (and, raised from
`RedditScraper.__init__`, is fatal to startup). -/
theorem c4_read_failure_counterexample :
    load_sent_posts .invalid = .error .jsonDecodeError ∧
    load_sent_posts .invalid ≠ .ok (∅ : Finset String) :=
  ⟨rfl, fun h => Except.noConfusion h⟩

/-- C4, amended: a read failure caused by a missing store file is treated
as "no prior history" (the empty set, not fatal); a read failure caused by
unparseable content propagates as an error; a readable store loads as the
set of its ids. -/
theorem c4_load_sent_posts :
    load_sent_posts .missing = .ok (∅ : Finset String) ∧
    load_sent_posts .invalid = .error .jsonDecodeError ∧
    ∀ ids, load_sent_posts (.valid ids) = .ok ids.toFinset :=
  ⟨rfl, rfl, fun _ => rfl⟩

/-! ## C6: media resolution precedence -/

/-- C6: when the post url is a direct image url, it is used directly even
if a preview set exists (tier (a) before tier (b)); when tier (a) does not
apply and a preview set exists with a non-empty resolution list, the
highest-resolution entry (Python `resolutions[-1]`) is used with `&amp;`
unescaped. -/
theorem c6_media_resolution_precedence (p : Post) (pv : PreviewImages) (u : String) :
    (is_image_url p.url = true → resolve_image_url p = some p.url) ∧
    (is_image_url p.url = false → p.preview = some pv →
      pv.resolutions.getLast? = some u →
      resolve_image_url p = some (pyReplace u "&amp;" "&")) := by
  constructor
  · intro h
    unfold resolve_image_url
    simp [h]
  · intro h hp hl
    unfold resolve_image_url
    simp [h, hp, hl]

/-- A post that is both a direct image url and carries a preview set. -/
def c6_direct_post : Post :=
  { id := "p6", title := "t", url := "https://example.com/a.jpg", score := 500,
    over_18 := false, post_hint := some "image",
    preview := some ⟨["https://pv/low&amp;x=1", "https://pv/high&amp;x=2"], "https://pv/src"⟩,
    author := some "au", created_utc := 0, permalink := "/r/memes/p6" }

/-- A post with no direct image url but with a preview set. -/
def c6_preview_post : Post :=
  { id := "p6b", title := "t", url := "https://example.com/post", score := 500,
    over_18 := false, post_hint := some "image",
    preview := some ⟨["https://pv/low&amp;x=1", "https://pv/high&amp;x=2"], "https://pv/src"⟩,
    author := some "au", created_utc := 0, permalink := "/r/memes/p6b" }

/-- C6, witness: the precedence theorem at the two concrete posts. -/
theorem c6_media_resolution_witness :
    resolve_image_url c6_direct_post = some c6_direct_post.url ∧
    resolve_image_url c6_preview_post = some (pyReplace "https://pv/high&amp;x=2" "&amp;" "&") :=
  ⟨(c6_media_resolution_precedence c6_direct_post
      ⟨["https://pv/low&amp;x=1", "https://pv/high&amp;x=2"], "https://pv/src"⟩
      "https://pv/high&amp;x=2").1 (by decide),
   (c6_media_resolution_precedence c6_preview_post
      ⟨["https://pv/low&amp;x=1", "https://pv/high&amp;x=2"], "https://pv/src"⟩
      "https://pv/high&amp;x=2").2 (by decide) rfl rfl⟩

/-! ## C7: score filter boundary -/

/-- C7: the score filter drops exactly the posts whose score is strictly
below `min_score`: any post with `score < min_score` (in particular
`score = min_score - 1`) fails the filters, and a post with
`score = min_score` passes whenever the remaining filters pass. -/
theorem c7_score_boundary (p : Post) (f : Filters) (min_score : Int) :
    (p.score < min_score → passes_filters p f min_score = false) ∧
    (p.score = min_score - 1 → passes_filters p f min_score = false) ∧
    (p.score = min_score →
      (f.exclude_nsfw && p.over_18) = false →
      p.title.length ≤ f.max_title_length →
      (f.image_only = true → (is_image_url p.url || p.post_hint == some "image") = true) →
      passes_filters p f min_score = true) := by
  have hbelow : p.score < min_score → passes_filters p f min_score = false := by
    intro h
    unfold passes_filters
    simp [h]
  refine ⟨hbelow, fun h => hbelow (by omega), ?_⟩
  intro hs hn ht himg
  unfold passes_filters
  rw [if_neg (by omega : ¬ p.score < min_score), hn,
    if_neg (by simp : ¬ (false = true)),
    if_neg (by omega : ¬ p.title.length > f.max_title_length)]
  cases hio : f.image_only with
  | false => simp
  | true => simp [himg hio]

/-- A post at the score boundary `score = min_score = 100`. -/
def c7_post : Post :=
  { id := "p7", title := "a meme", url := "https://example.com/a.png", score := 100,
    over_18 := false, post_hint := none, preview := none,
    author := some "au", created_utc := 0, permalink := "/r/memes/p7" }

/-- C7, witness: with default filters and `min_score = 100`, the boundary
post is kept and the same post with score 99 is dropped. -/
theorem c7_score_boundary_witness :
    passes_filters c7_post {} 100 = true ∧
    passes_filters { c7_post with score := 99 } {} 100 = false :=
  ⟨(c7_score_boundary c7_post {} 100).2.2 (by decide) (by decide) (by decide)
      (fun _ => by decide),
   (c7_score_boundary { c7_post with score := 99 } {} 100).2.1 (by decide)⟩

/-! ## C8: title length boundary -/

/-- C8: the title filter drops exactly the posts whose title is strictly
longer than `max_title_length`: any such post fails the filters, and a
post whose title has exactly `max_title_length` characters passes whenever
the remaining filters pass. -/
theorem c8_title_boundary (p : Post) (f : Filters) (min_score : Int) :
    (p.title.length > f.max_title_length → passes_filters p f min_score = false) ∧
    (p.title.length = f.max_title_length →
      min_score ≤ p.score →
      (f.exclude_nsfw && p.over_18) = false →
      (f.image_only = true → (is_image_url p.url || p.post_hint == some "image") = true) →
      passes_filters p f min_score = true) := by
  constructor
  · intro h
    unfold passes_filters
    by_cases h1 : p.score < min_score
    · simp [h1]
    · by_cases h2 : (f.exclude_nsfw && p.over_18) = true
      · simp [h1, h2]
      · simp [h1, h2, h]
  · intro ht hs hn himg
    unfold passes_filters
    rw [if_neg (by omega : ¬ p.score < min_score), hn,
      if_neg (by simp : ¬ (false = true)),
      if_neg (by omega : ¬ p.title.length > f.max_title_length)]
    cases hio : f.image_only with
    | false => simp
    | true => simp [himg hio]

/-- A post whose title has exactly the default `max_title_length = 200`
characters. -/
def c8_post : Post :=
  { id := "p8", title := ⟨List.replicate 200 't'⟩, url := "https://example.com/a.png",
    score := 500, over_18 := false, post_hint := none, preview := none,
    author := some "au", created_utc := 0, permalink := "/r/memes/p8" }

/-- C8, witness: with default filters, the 200-character title is kept and
a 201-character title is dropped. -/
theorem c8_title_boundary_witness :
    passes_filters c8_post {} 100 = true ∧
    passes_filters { c8_post with title := ⟨List.replicate 201 't'⟩ } {} 100 = false :=
  ⟨(c8_title_boundary c8_post {} 100).2 (by decide) (by decide) (by decide)
      (fun _ => by decide),
   (c8_title_boundary { c8_post with title := ⟨List.replicate 201 't'⟩ } {} 100).1
      (by decide)⟩

/-! ## C3: three-tier delivery dispatch -/

/-- C3: per-item delivery dispatch on the error class. A fallback-eligible
image failure is retried as a document with the same url and the same
caption; when the document tier also fails, the text fallback is attempted
and its own failure only yields a logged outcome (nothing is raised and
nothing further is attempted); a tier-1 error outside the two recognized
classes is re-raised at once, with no document attempt. -/
theorem c3_fallback_dispatch (t : Transport) (m : Meme) (e : TgError) :
    (t.photoResult = .error e → fallback_eligible e = true → t.documentResult = .ok () →
      send_single_meme t m =
        ([.photo m.image_url (format_caption m),
          .document m.image_url (format_caption m)], .delivered)) ∧
    (t.photoResult = .error e → fallback_eligible e = true →
      ∀ e1, t.documentResult = .error e1 →
      (t.textResult = .ok () →
        send_single_meme t m =
          ([.photo m.image_url (format_caption m),
            .document m.image_url (format_caption m),
            .text (text_fallback_message m)], .delivered)) ∧
      (∀ e2, t.textResult = .error e2 →
        send_single_meme t m =
          ([.photo m.image_url (format_caption m),
            .document m.image_url (format_caption m),
            .text (text_fallback_message m)], .loggedFailure e2))) ∧
    (t.photoResult = .error e → fallback_eligible e = false →
      send_single_meme t m = ([.photo m.image_url (format_caption m)], .raised e)) := by
  refine ⟨?_, ?_, ?_⟩
  · intro hp he hd
    unfold send_single_meme
    rw [hp, hd]
    simp [he]
  · intro hp he e1 hd
    constructor
    · intro htx
      unfold send_single_meme
      rw [hp, hd, htx]
      simp [he]
    · intro e2 htx
      unfold send_single_meme
      rw [hp, hd, htx]
      simp [he]
  · intro hp he
    unfold send_single_meme
    rw [hp]
    simp [he]

/-- A minimal meme for the delivery scenarios. -/
def c3_meme : Meme :=
  { id := "m3", title := "a meme", url := "https://example.com/a.png",
    image_url := "https://example.com/a.png", score := 500, subreddit := "memes",
    author := "au", created_utc := 0, permalink := "https://reddit.com/r/memes/m3" }

/-- A fallback-eligible image error. -/
def c3_dim_error : TgError := ⟨"Bad Request: photo_invalid_dimensions"⟩

/-- C3, witness: the dispatch theorem at concrete transports — eligible
image failure with a document success, eligible image failure with both
document and text failures, and a non-eligible image failure. -/
theorem c3_fallback_dispatch_witness :
    (send_single_meme ⟨.error c3_dim_error, .ok (), .ok ()⟩ c3_meme =
      ([.photo c3_meme.image_url (format_caption c3_meme),
        .document c3_meme.image_url (format_caption c3_meme)], .delivered)) ∧
    (send_single_meme ⟨.error c3_dim_error, .error ⟨"doc failed"⟩, .error ⟨"text failed"⟩⟩ c3_meme =
      ([.photo c3_meme.image_url (format_caption c3_meme),
        .document c3_meme.image_url (format_caption c3_meme),
        .text (text_fallback_message c3_meme)], .loggedFailure ⟨"text failed"⟩)) ∧
    (send_single_meme ⟨.error ⟨"Unauthorized"⟩, .ok (), .ok ()⟩ c3_meme =
      ([.photo c3_meme.image_url (format_caption c3_meme)], .raised ⟨"Unauthorized"⟩)) :=
  ⟨(c3_fallback_dispatch ⟨.error c3_dim_error, .ok (), .ok ()⟩ c3_meme c3_dim_error).1
      rfl (by decide) rfl,
   (((c3_fallback_dispatch ⟨.error c3_dim_error, .error ⟨"doc failed"⟩, .error ⟨"text failed"⟩⟩
      c3_meme c3_dim_error).2.1 rfl (by decide) ⟨"doc failed"⟩ rfl).2 ⟨"text failed"⟩ rfl),
   (c3_fallback_dispatch ⟨.error ⟨"Unauthorized"⟩, .ok (), .ok ()⟩ c3_meme
      ⟨"Unauthorized"⟩).2.2 rfl (by decide)⟩

/-! ## C2: partial-failure isolation and the aggregate summary -/

/-- The non-fallback-eligible error item 2 raises in the C2 scenario. -/
def c2_error : TgError := ⟨"Unauthorized"⟩

/-- The three-item batch of the C2 scenario: items 1 and 3 deliver, item
2's image delivery raises a non-fallback-eligible error. -/
def c2_batch : List (Transport × Meme) :=
  [(⟨.ok (), .ok (), .ok ()⟩, { c3_meme with id := "m1" }),
   (⟨.error c2_error, .ok (), .ok ()⟩, { c3_meme with id := "m2" }),
   (⟨.ok (), .ok (), .ok ()⟩, { c3_meme with id := "m3" })]

/-- C2, counterexample: in the three-item scenario item 2's delivery does
raise a non-fallback-eligible error, yet the driver's summary is
`sent = 3, failed = 0`, not the claimed `sent = 2, failed = 1` — the
per-item `except` inside `_send_memes_async` swallows the error before it
can reach the driver's counting loop. -/
theorem c2_partial_failure_counterexample :
    fallback_eligible c2_error = false ∧
    (send_single_meme ⟨.error c2_error, .ok (), .ok ()⟩
      { c3_meme with id := "m2" }).2 = .raised c2_error ∧
    scrape_and_send_counts c2_batch = (3, 0) ∧
    scrape_and_send_counts c2_batch ≠ (2, 1) := by
  refine ⟨by decide, by decide, by decide, by decide⟩

/-- The foldl of the driver's counting loop only ever increments the sent
counter, because `send_memes` never propagates a per-item error. -/
theorem scrape_and_send_counts_go (items : List (Transport × Meme)) (s f : Nat) :
    items.foldl
      (fun counts tm =>
        match send_memes [tm] with
        | .ok _ => (counts.1 + 1, counts.2)
        | .error _ => (counts.1, counts.2 + 1))
      (s, f) = (s + items.length, f) := by
  induction items generalizing s with
  | nil => simp
  | cons tm rest ih =>
    rw [List.foldl_cons]
    show List.foldl _ (s + 1, f) rest = _
    rw [ih]
    rw [List.length_cons]
    congr 1
    omega

/-- C2, amended: every item of the batch is still attempted — each is
mapped through `_send_single_meme` and a raised error is caught and logged
for that item alone — but the logged error never propagates out of
`send_memes`, so the driver counts every item as sent: the summary is
`sent = number of items, failed = 0` (for the three-item scenario,
`sent = 3, failed = 0`). -/
theorem c2_partial_failure_isolation (items : List (Transport × Meme)) :
    send_memes_async items =
      items.map (fun tm =>
        match (send_single_meme tm.1 tm.2).2 with
        | .raised e => .errorLogged e
        | _ => .ok) ∧
    scrape_and_send_counts items = (items.length, 0) := by
  refine ⟨rfl, ?_⟩
  unfold scrape_and_send_counts
  rw [scrape_and_send_counts_go]
  simp

/-! ## Lemmas about the scrape loop -/

theorem extract_meme_data_id (p : Post) (n : String) (m : Meme)
    (h : extract_meme_data p n = some m) : m.id = p.id := by
  unfold extract_meme_data at h
  cases hr : resolve_image_url p with
  | none => rw [hr] at h; cases h
  | some img => rw [hr] at h; cases h; rfl

theorem extract_meme_data_none (p : Post) (n : String) :
    extract_meme_data p n = none ↔ resolve_image_url p = none := by
  unfold extract_meme_data
  cases resolve_image_url p <;> simp

/-- The loop body skips a post that is already seen, fails the filters, or
has no resolvable media, leaving the state unchanged. -/
theorem process_posts_cons_skip (filters : Filters) (ms : Int) (name : String)
    (p : Post) (ps : List Post) (sent : Finset String)
    (h : p.id ∈ sent ∨ passes_filters p filters ms = false ∨
      extract_meme_data p name = none) :
    process_posts filters ms name (p :: ps) sent =
      process_posts filters ms name ps sent := by
  rw [process_posts.eq_def]
  rcases h with h | h | h <;> simp [h]

/-- The loop body extracts an unseen post that passes the filters,
appending the meme and inserting its id. -/
theorem process_posts_cons_take (filters : Filters) (ms : Int) (name : String)
    (p : Post) (ps : List Post) (sent : Finset String) (m : Meme)
    (h1 : p.id ∉ sent) (h2 : passes_filters p filters ms = true)
    (he : extract_meme_data p name = some m) :
    process_posts filters ms name (p :: ps) sent =
      (m :: (process_posts filters ms name ps (insert p.id sent)).1,
        (process_posts filters ms name ps (insert p.id sent)).2) := by
  rw [process_posts.eq_def]
  simp [h1, h2, he]

theorem process_posts_mono (filters : Filters) (ms : Int) (name : String)
    (ps : List Post) (sent : Finset String) :
    sent ⊆ (process_posts filters ms name ps sent).2 := by
  induction ps generalizing sent with
  | nil => exact Finset.Subset.refl _
  | cons p ps ih =>
    by_cases h1 : p.id ∈ sent
    · rw [process_posts_cons_skip _ _ _ _ _ _ (Or.inl h1)]
      exact ih sent
    · by_cases h2 : passes_filters p filters ms = true
      · cases he : extract_meme_data p name with
        | none =>
          rw [process_posts_cons_skip _ _ _ _ _ _ (Or.inr (Or.inr he))]
          exact ih sent
        | some m =>
          rw [process_posts_cons_take _ _ _ _ _ _ _ h1 h2 he]
          exact (Finset.subset_insert _ _).trans (ih (insert p.id sent))
      · have h2' : passes_filters p filters ms = false := by
          revert h2; cases passes_filters p filters ms <;> simp
        rw [process_posts_cons_skip _ _ _ _ _ _ (Or.inr (Or.inl h2'))]
        exact ih sent

/-- After the loop runs, every post of the listing is dead with respect to
the final seen set: its id is in the set, or it fails the filters, or it
has no resolvable media. -/
theorem process_posts_dead (filters : Filters) (ms : Int) (name : String)
    (ps : List Post) (sent : Finset String) :
    ∀ p ∈ ps, p.id ∈ (process_posts filters ms name ps sent).2 ∨
      passes_filters p filters ms = false ∨ resolve_image_url p = none := by
  induction ps generalizing sent with
  | nil => intro p hp; cases hp
  | cons q ps ih =>
    intro p hp
    by_cases h1 : q.id ∈ sent
    · rw [process_posts_cons_skip _ _ _ _ _ _ (Or.inl h1)]
      rcases List.mem_cons.mp hp with rfl | hp'
      · exact Or.inl (process_posts_mono _ _ _ _ _ h1)
      · exact ih sent p hp'
    · by_cases h2 : passes_filters q filters ms = true
      · cases he : extract_meme_data q name with
        | none =>
          rw [process_posts_cons_skip _ _ _ _ _ _ (Or.inr (Or.inr he))]
          rcases List.mem_cons.mp hp with rfl | hp'
          · exact Or.inr (Or.inr ((extract_meme_data_none p name).mp he))
          · exact ih sent p hp'
        | some m =>
          rw [process_posts_cons_take _ _ _ _ _ _ _ h1 h2 he]
          rcases List.mem_cons.mp hp with rfl | hp'
          · exact Or.inl (process_posts_mono _ _ _ _ _
              (Finset.mem_insert_self p.id sent))
          · exact ih (insert q.id sent) p hp'
      · have h2' : passes_filters q filters ms = false := by
          revert h2; cases passes_filters q filters ms <;> simp
        rw [process_posts_cons_skip _ _ _ _ _ _ (Or.inr (Or.inl h2'))]
        rcases List.mem_cons.mp hp with rfl | hp'
        · exact Or.inr (Or.inl h2')
        · exact ih sent p hp'

/-- A listing whose posts are all dead with respect to the current seen
set yields nothing and leaves the state unchanged. -/
theorem process_posts_stuck (filters : Filters) (ms : Int) (name : String)
    (ps : List Post) (sent : Finset String)
    (h : ∀ p ∈ ps, p.id ∈ sent ∨ passes_filters p filters ms = false ∨
      resolve_image_url p = none) :
    process_posts filters ms name ps sent = ([], sent) := by
  induction ps with
  | nil => rfl
  | cons q ps ih =>
    have hq := h q (List.mem_cons_self q ps)
    rw [process_posts_cons_skip _ _ _ _ _ _ ?skip]
    case skip =>
      rcases hq with h' | h' | h'
      · exact Or.inl h'
      · exact Or.inr (Or.inl h')
      · exact Or.inr (Or.inr ((extract_meme_data_none q name).mpr h'))
    exact ih (fun p hp => h p (List.mem_cons_of_mem q hp))

/-- Every meme the loop returns was unseen when the loop started. -/
theorem process_posts_fresh (filters : Filters) (ms : Int) (name : String)
    (ps : List Post) (sent : Finset String) :
    ∀ m ∈ (process_posts filters ms name ps sent).1, m.id ∉ sent := by
  induction ps generalizing sent with
  | nil => intro m hm; cases hm
  | cons q ps ih =>
    intro m hm
    by_cases h1 : q.id ∈ sent
    · rw [process_posts_cons_skip _ _ _ _ _ _ (Or.inl h1)] at hm
      exact ih sent m hm
    · by_cases h2 : passes_filters q filters ms = true
      · cases he : extract_meme_data q name with
        | none =>
          rw [process_posts_cons_skip _ _ _ _ _ _ (Or.inr (Or.inr he))] at hm
          exact ih sent m hm
        | some m' =>
          rw [process_posts_cons_take _ _ _ _ _ _ _ h1 h2 he] at hm
          rcases List.mem_cons.mp hm with rfl | hm'
          · rw [extract_meme_data_id q name m he]
            exact h1
          · intro hc
            exact ih (insert q.id sent) m hm' (Finset.mem_insert_of_mem hc)
      · have h2' : passes_filters q filters ms = false := by
          revert h2; cases passes_filters q filters ms <;> simp
        rw [process_posts_cons_skip _ _ _ _ _ _ (Or.inr (Or.inl h2'))] at hm
        exact ih sent m hm

/-- The loop's final seen set is exactly the starting set plus the ids of
the memes it returned. -/
theorem process_posts_sent_eq (filters : Filters) (ms : Int) (name : String)
    (ps : List Post) (sent : Finset String) :
    (process_posts filters ms name ps sent).2 =
      sent ∪ ((process_posts filters ms name ps sent).1.map Meme.id).toFinset := by
  induction ps generalizing sent with
  | nil => simp [process_posts]
  | cons q ps ih =>
    by_cases h1 : q.id ∈ sent
    · rw [process_posts_cons_skip _ _ _ _ _ _ (Or.inl h1)]
      exact ih sent
    · by_cases h2 : passes_filters q filters ms = true
      · cases he : extract_meme_data q name with
        | none =>
          rw [process_posts_cons_skip _ _ _ _ _ _ (Or.inr (Or.inr he))]
          exact ih sent
        | some m =>
          rw [process_posts_cons_take _ _ _ _ _ _ _ h1 h2 he]
          dsimp only
          rw [ih (insert q.id sent), List.map_cons, List.toFinset_cons,
            extract_meme_data_id q name m he, Finset.insert_union, Finset.union_insert]
      · have h2' : passes_filters q filters ms = false := by
          revert h2; cases passes_filters q filters ms <;> simp
        rw [process_posts_cons_skip _ _ _ _ _ _ (Or.inr (Or.inl h2'))]
        exact ih sent

/-- Unfolding the subreddit loop at a subreddit whose fetch raised. -/
theorem scrape_subreddits_cons_error (filters : Filters) (ms : Int)
    (c : SubredditFetch) (cs : List SubredditFetch) (sent : Finset String)
    (msg : String) (hf : c.fetch = .fetchError msg) :
    scrape_subreddits filters ms (c :: cs) sent =
      scrape_subreddits filters ms cs sent := by
  rw [scrape_subreddits.eq_def]
  dsimp only
  rw [hf]

/-- Unfolding the subreddit loop at a subreddit whose fetch returned a
listing. -/
theorem scrape_subreddits_cons_ok (filters : Filters) (ms : Int)
    (c : SubredditFetch) (cs : List SubredditFetch) (sent : Finset String)
    (posts : List Post) (hf : c.fetch = .ok posts) :
    scrape_subreddits filters ms (c :: cs) sent =
      ((process_posts filters ms c.name posts sent).1 ++
        (scrape_subreddits filters ms cs
          (process_posts filters ms c.name posts sent).2).1,
       (scrape_subreddits filters ms cs
          (process_posts filters ms c.name posts sent).2).2) := by
  rw [scrape_subreddits.eq_def]
  dsimp only
  rw [hf]

theorem scrape_subreddits_mono (filters : Filters) (ms : Int)
    (cs : List SubredditFetch) (sent : Finset String) :
    sent ⊆ (scrape_subreddits filters ms cs sent).2 := by
  induction cs generalizing sent with
  | nil => exact Finset.Subset.refl _
  | cons c cs ih =>
    cases hf : c.fetch with
    | fetchError msg =>
      rw [scrape_subreddits_cons_error _ _ _ _ _ _ hf]
      exact ih sent
    | ok posts =>
      rw [scrape_subreddits_cons_ok _ _ _ _ _ _ hf]
      exact (process_posts_mono _ _ _ _ _).trans
        (ih (process_posts filters ms c.name posts sent).2)

/-- After the subreddit loop runs, every post of every successfully
fetched listing is dead with respect to the final seen set. -/
theorem scrape_subreddits_dead (filters : Filters) (ms : Int)
    (cs : List SubredditFetch) (sent : Finset String) :
    ∀ c ∈ cs, ∀ posts, c.fetch = .ok posts → ∀ p ∈ posts,
      p.id ∈ (scrape_subreddits filters ms cs sent).2 ∨
      passes_filters p filters ms = false ∨ resolve_image_url p = none := by
  induction cs generalizing sent with
  | nil => intro c hc; cases hc
  | cons c' cs ih =>
    intro c hc posts hposts p hp
    cases hf : c'.fetch with
    | fetchError msg =>
      rw [scrape_subreddits_cons_error _ _ _ _ _ _ hf]
      rcases List.mem_cons.mp hc with rfl | hc'
      · rw [hf] at hposts; cases hposts
      · exact ih sent c hc' posts hposts p hp
    | ok posts' =>
      rw [scrape_subreddits_cons_ok _ _ _ _ _ _ hf]
      rcases List.mem_cons.mp hc with rfl | hc'
      · rw [hf] at hposts
        cases hposts
        rcases process_posts_dead filters ms c.name posts sent p hp with h | h
        · exact Or.inl (scrape_subreddits_mono _ _ _ _ h)
        · exact Or.inr h
      · exact ih (process_posts filters ms c'.name posts' sent).2 c hc' posts hposts p hp

/-- A subreddit list all of whose fetched posts are dead with respect to
the current seen set yields nothing and leaves the state unchanged. -/
theorem scrape_subreddits_stuck (filters : Filters) (ms : Int)
    (cs : List SubredditFetch) (sent : Finset String)
    (h : ∀ c ∈ cs, ∀ posts, c.fetch = .ok posts → ∀ p ∈ posts,
      p.id ∈ sent ∨ passes_filters p filters ms = false ∨
      resolve_image_url p = none) :
    scrape_subreddits filters ms cs sent = ([], sent) := by
  induction cs with
  | nil => rfl
  | cons c cs ih =>
    cases hf : c.fetch with
    | fetchError msg =>
      rw [scrape_subreddits_cons_error _ _ _ _ _ _ hf]
      exact ih (fun c' hc' => h c' (List.mem_cons_of_mem c hc'))
    | ok posts =>
      rw [scrape_subreddits_cons_ok _ _ _ _ _ _ hf]
      rw [process_posts_stuck _ _ _ _ _
        (h c (List.mem_cons_self c cs) posts hf)]
      rw [ih (fun c' hc' => h c' (List.mem_cons_of_mem c hc'))]
      rfl

/-- Every meme the subreddit loop returns was unseen when it started. -/
theorem scrape_subreddits_fresh (filters : Filters) (ms : Int)
    (cs : List SubredditFetch) (sent : Finset String) :
    ∀ m ∈ (scrape_subreddits filters ms cs sent).1, m.id ∉ sent := by
  induction cs generalizing sent with
  | nil => intro m hm; cases hm
  | cons c cs ih =>
    intro m hm
    cases hf : c.fetch with
    | fetchError msg =>
      rw [scrape_subreddits_cons_error _ _ _ _ _ _ hf] at hm
      exact ih sent m hm
    | ok posts =>
      rw [scrape_subreddits_cons_ok _ _ _ _ _ _ hf] at hm
      rcases List.mem_append.mp hm with hm' | hm'
      · exact process_posts_fresh _ _ _ _ _ m hm'
      · intro hc
        exact ih (process_posts filters ms c.name posts sent).2 m hm'
          (process_posts_mono _ _ _ _ _ hc)

/-- The subreddit loop's final seen set is exactly the starting set plus
the ids of the memes it returned. -/
theorem scrape_subreddits_sent_eq (filters : Filters) (ms : Int)
    (cs : List SubredditFetch) (sent : Finset String) :
    (scrape_subreddits filters ms cs sent).2 =
      sent ∪ ((scrape_subreddits filters ms cs sent).1.map Meme.id).toFinset := by
  induction cs generalizing sent with
  | nil => simp [scrape_subreddits]
  | cons c cs ih =>
    cases hf : c.fetch with
    | fetchError msg =>
      rw [scrape_subreddits_cons_error _ _ _ _ _ _ hf]
      exact ih sent
    | ok posts =>
      rw [scrape_subreddits_cons_ok _ _ _ _ _ _ hf]
      rw [ih (process_posts filters ms c.name posts sent).2]
      rw [process_posts_sent_eq]
      simp only [List.map_append, List.toFinset_append]
      rw [Finset.union_assoc]

/-! ## C5: idempotent dedup -/

/-- C5: rerunning `scrape_memes` over the same upstream listings from the
identifier-store state the first run produced returns no memes and leaves
the store state unchanged — every item the first run returned has its id
in the seen set, so the second run's seen-id skip (together with the
unchanged filter and media-extraction outcomes) drops every post. -/
theorem c5_idempotent_dedup (filters : Filters) (ms : Int)
    (subreddits : List SubredditFetch) (sent : Finset String) :
    (scrape_memes filters ms subreddits
      (scrape_memes filters ms subreddits sent).sent_posts).memes = [] ∧
    (scrape_memes filters ms subreddits
      (scrape_memes filters ms subreddits sent).sent_posts).sent_posts =
      (scrape_memes filters ms subreddits sent).sent_posts := by
  have hstuck := scrape_subreddits_stuck filters ms subreddits
    (scrape_subreddits filters ms subreddits sent).2
    (fun c hc posts hf p hp =>
      scrape_subreddits_dead filters ms subreddits sent c hc posts hf p hp)
  constructor
  · show (scrape_subreddits filters ms subreddits
      (scrape_subreddits filters ms subreddits sent).2).1 = []
    rw [hstuck]
  · show (scrape_subreddits filters ms subreddits
      (scrape_subreddits filters ms subreddits sent).2).2 =
      (scrape_subreddits filters ms subreddits sent).2
    rw [hstuck]

/-! ## C9: per-category failure isolation, output order, single persist -/

/-- C9: a subreddit whose fetch raised is skipped without affecting the
processing of the other subreddits — the run over a list with a failing
subreddit inserted anywhere equals the run over the list without it; a
successfully fetched subreddit contributes its memes before those of the
later subreddits (category-then-source order); and the identifier store is
persisted exactly once, after all subreddits are processed, with the final
set. -/
theorem c9_category_failure_isolation (filters : Filters) (ms : Int)
    (xs ys : List SubredditFetch) (name msg : String) (sent : Finset String)
    (subreddits : List SubredditFetch) (c : SubredditFetch)
    (cs : List SubredditFetch) (posts : List Post) :
    scrape_subreddits filters ms (xs ++ ⟨name, .fetchError msg⟩ :: ys) sent =
      scrape_subreddits filters ms (xs ++ ys) sent ∧
    (c.fetch = .ok posts →
      scrape_subreddits filters ms (c :: cs) sent =
        ((process_posts filters ms c.name posts sent).1 ++
          (scrape_subreddits filters ms cs
            (process_posts filters ms c.name posts sent).2).1,
         (scrape_subreddits filters ms cs
            (process_posts filters ms c.name posts sent).2).2)) ∧
    (scrape_memes filters ms subreddits sent).saves =
      [(scrape_memes filters ms subreddits sent).sent_posts] := by
  refine ⟨?_, fun hf => scrape_subreddits_cons_ok _ _ _ _ _ _ hf, rfl⟩
  induction xs generalizing sent with
  | nil =>
    rw [List.nil_append, List.nil_append,
      scrape_subreddits_cons_error _ _ _ _ _ msg rfl]
  | cons x xs ih =>
    rw [List.cons_append, List.cons_append]
    cases hf : x.fetch with
    | fetchError m2 =>
      rw [scrape_subreddits_cons_error _ _ _ _ _ _ hf,
        scrape_subreddits_cons_error _ _ _ _ _ _ hf]
      exact ih sent
    | ok posts2 =>
      rw [scrape_subreddits_cons_ok _ _ _ _ _ _ hf,
        scrape_subreddits_cons_ok _ _ _ _ _ _ hf]
      rw [ih]

def c9_sub_a : SubredditFetch := ⟨"a", .ok []⟩
def c9_sub_bad : SubredditFetch := ⟨"b", .fetchError "ConnectionError"⟩
def c9_sub_c : SubredditFetch := ⟨"c", .ok []⟩

/-- C9, witness: the isolation theorem at a concrete subreddit list with a
failing middle subreddit, and the order equation at a concrete fetched
subreddit. -/
theorem c9_category_failure_isolation_witness :
    scrape_subreddits {} 100 ([c9_sub_a] ++ c9_sub_bad :: [c9_sub_c]) ∅ =
      scrape_subreddits {} 100 ([c9_sub_a] ++ [c9_sub_c]) ∅ ∧
    scrape_subreddits {} 100 (c9_sub_a :: [c9_sub_c]) ∅ =
      ((process_posts {} 100 c9_sub_a.name [] ∅).1 ++
        (scrape_subreddits {} 100 [c9_sub_c]
          (process_posts {} 100 c9_sub_a.name [] ∅).2).1,
       (scrape_subreddits {} 100 [c9_sub_c]
          (process_posts {} 100 c9_sub_a.name [] ∅).2).2) :=
  ⟨(c9_category_failure_isolation {} 100 [c9_sub_a] [c9_sub_c] "b"
      "ConnectionError" ∅ [] c9_sub_a [c9_sub_c] []).1,
   (c9_category_failure_isolation {} 100 [c9_sub_a] [c9_sub_c] "b"
      "ConnectionError" ∅ [] c9_sub_a [c9_sub_c] []).2.1 rfl⟩

/-! ## C10: ids enter the seen set at extraction, before delivery -/

/-- C10: every meme a fetch returns has its id in the seen set immediately
afterwards; the final seen set is exactly the starting set plus the ids of
the returned memes (so a post dropped by a filter or by failed media
extraction adds nothing); and any later fetch started from any superset of
that state — delivery, which never removes ids, only grows it — never
returns an item with the id of an already-returned meme. -/
theorem c10_seen_ids_invariant (filters : Filters) (ms : Int)
    (subreddits : List SubredditFetch) (sent : Finset String) :
    (∀ m ∈ (scrape_memes filters ms subreddits sent).memes,
      m.id ∈ (scrape_memes filters ms subreddits sent).sent_posts) ∧
    (scrape_memes filters ms subreddits sent).sent_posts =
      sent ∪ ((scrape_memes filters ms subreddits sent).memes.map Meme.id).toFinset ∧
    ∀ (S' : Finset String) (subreddits' : List SubredditFetch),
      (scrape_memes filters ms subreddits sent).sent_posts ⊆ S' →
      ∀ m ∈ (scrape_memes filters ms subreddits sent).memes,
      ∀ m' ∈ (scrape_memes filters ms subreddits' S').memes, m'.id ≠ m.id := by
  have heq := scrape_subreddits_sent_eq filters ms subreddits sent
  have hmem : ∀ m ∈ (scrape_subreddits filters ms subreddits sent).1,
      m.id ∈ (scrape_subreddits filters ms subreddits sent).2 := by
    intro m hm
    rw [heq]
    exact Finset.mem_union_right _
      (List.mem_toFinset.mpr (List.mem_map_of_mem Meme.id hm))
  refine ⟨hmem, heq, ?_⟩
  intro S' subs' hsub m hm m' hm' hid
  exact scrape_subreddits_fresh filters ms subs' S' m' hm'
    (by rw [hid]; exact hsub (hmem m hm))

def c10_post : Post :=
  { id := "pA", title := "t", url := "https://example.com/a.png", score := 500,
    over_18 := false, post_hint := none, preview := none,
    author := some "au", created_utc := 0, permalink := "/r/memes/pA" }

def c10_post2 : Post :=
  { id := "pB", title := "t2", url := "https://example.com/b.png", score := 500,
    over_18 := false, post_hint := none, preview := none,
    author := some "au", created_utc := 0, permalink := "/r/memes/pB" }

def c10_meme : Meme :=
  { id := "pA", title := "t", url := "https://example.com/a.png",
    image_url := "https://example.com/a.png", score := 500, subreddit := "memes",
    author := "au", created_utc := 0, permalink := "https://reddit.com/r/memes/pA" }

def c10_meme2 : Meme :=
  { id := "pB", title := "t2", url := "https://example.com/b.png",
    image_url := "https://example.com/b.png", score := 500, subreddit := "memes",
    author := "au", created_utc := 0, permalink := "https://reddit.com/r/memes/pB" }

def c10_subs : List SubredditFetch := [⟨"memes", .ok [c10_post]⟩]
def c10_subs2 : List SubredditFetch := [⟨"memes", .ok [c10_post, c10_post2]⟩]

/-- C10, witness: the invariant theorem applied to the concrete run that
returns `c10_meme` and then a second run (whose upstream also carries the
old post plus a new one) that returns only the new meme. -/
theorem c10_seen_ids_invariant_witness : c10_meme2.id ≠ c10_meme.id :=
  (c10_seen_ids_invariant {} 100 c10_subs ∅).2.2
    (scrape_memes {} 100 c10_subs ∅).sent_posts c10_subs2
    (Finset.Subset.refl _) c10_meme (by decide) c10_meme2 (by decide)

end MemeScraper
